import Mathlib

/-!
Verification of the signal-generation and position-state engine of an
automated Upbit trading client (`src/upbit_bot/strategy.py`,
`src/upbit_bot/upbit_api.py`).

Numbers handled by the Python code are IEEE floats.  Finite values are
modelled exactly as rationals; the special values NaN and the two
infinities, which the indicator pipeline can genuinely produce (NaN from
unpopulated rolling windows and 0/0, infinity from x/0 in the RSI ratio),
are modelled by the dedicated carrier `FVal` below, whose arithmetic and
comparison operations follow the IEEE rules (every comparison with NaN is
false, matching Python/numpy semantics used in the strategy conditions).
-/

/-- Float value carrier: NaN, the two infinities, or a finite value. -/
inductive FVal
  | nan
  | pinf
  | ninf
  | val (q : ℚ)
deriving DecidableEq, Repr

namespace FVal

/-- IEEE negation. -/
def neg : FVal → FVal
  | nan => nan
  | pinf => ninf
  | ninf => pinf
  | val q => val (-q)

/-- IEEE addition (inf + (-inf) = NaN, NaN absorbs). -/
def add : FVal → FVal → FVal
  | nan, _ => nan
  | _, nan => nan
  | pinf, ninf => nan
  | ninf, pinf => nan
  | pinf, _ => pinf
  | _, pinf => pinf
  | ninf, _ => ninf
  | _, ninf => ninf
  | val a, val b => val (a + b)

/-- IEEE subtraction. -/
def sub (a b : FVal) : FVal := a.add b.neg

/-- IEEE multiplication (inf * 0 = NaN, NaN absorbs). -/
def mul : FVal → FVal → FVal
  | nan, _ => nan
  | _, nan => nan
  | pinf, pinf => pinf
  | pinf, ninf => ninf
  | ninf, pinf => ninf
  | ninf, ninf => pinf
  | pinf, val q => if 0 < q then pinf else if q < 0 then ninf else nan
  | val q, pinf => if 0 < q then pinf else if q < 0 then ninf else nan
  | ninf, val q => if 0 < q then ninf else if q < 0 then pinf else nan
  | val q, ninf => if 0 < q then ninf else if q < 0 then pinf else nan
  | val a, val b => val (a * b)

/-- IEEE division: x/0 is a signed infinity for x not 0, 0/0 is NaN,
finite/inf is 0, inf/inf is NaN, NaN absorbs.  (The sign of a zero divisor
is taken positive; the strategy only ever divides by non-negative
quantities.) -/
def div : FVal → FVal → FVal
  | nan, _ => nan
  | _, nan => nan
  | pinf, pinf => nan
  | pinf, ninf => nan
  | ninf, pinf => nan
  | ninf, ninf => nan
  | pinf, val q => if q < 0 then ninf else pinf
  | ninf, val q => if q < 0 then pinf else ninf
  | val _, pinf => val 0
  | val _, ninf => val 0
  | val a, val b =>
      if b = 0 then (if 0 < a then pinf else if a < 0 then ninf else nan)
      else val (a / b)

/-- Python comparison `f > q` for a series value `f` against a finite
threshold: false whenever `f` is NaN. -/
def gtQ : FVal → ℚ → Bool
  | val x, q => decide (q < x)
  | pinf, _ => true
  | _, _ => false

/-- Python comparison `f < q`: false whenever `f` is NaN. -/
def ltQ : FVal → ℚ → Bool
  | val x, q => decide (x < q)
  | ninf, _ => true
  | _, _ => false

end FVal

/-- Python comparison `p > f` of a finite current price against a series
value: false whenever `f` is NaN. -/
def qGtF (p : ℚ) : FVal → Bool
  | FVal.val x => decide (x < p)
  | FVal.ninf => true
  | _ => false

/-- Python comparison `p < f` of a finite current price against a series
value: false whenever `f` is NaN. -/
def qLtF (p : ℚ) : FVal → Bool
  | FVal.val x => decide (p < x)
  | FVal.pinf => true
  | _ => false

/-- Fields of `df.iloc[-1]` that the two signal evaluators read. -/
structure Row where
  MA : FVal
  LowerBand : FVal
  RSI : FVal
  MACD_Hist : FVal
  K : FVal
  Volume_Ratio : FVal
deriving DecidableEq, Repr

/-- Signal side: the `"buy"` / `"sell"` strings of the source. -/
inductive Side
  | buy
  | sell
deriving DecidableEq, Repr

/-- Signal reason strings of the source. -/
inductive Reason
  | OVERSOLD
  | STOP_LOSS
  | TAKE_PROFIT
  | TECH_SIGNAL
  | MOMENTUM_ENTRY
  | PARTIAL_PROFIT
  | FINAL_PROFIT
  | TREND_REVERSAL
deriving DecidableEq, Repr

namespace MeanReversion

/-- Mutable numeric state of a `MeanReversionStrategy` instance
(`__init__`, strategy.py lines 30-44).  `stop_loss_pct`,
`take_profit_pct` are assigned once in `__init__` and never changed, so
they are modelled as the constants below. -/
structure State where
  entry_price : ℚ
  total_fee : ℚ
  trade_count : ℕ
deriving DecidableEq, Repr

/-- `self.stop_loss_pct = 0.012` (line 38). -/
def stop_loss_pct : ℚ := 12 / 1000

/-- `self.take_profit_pct = 0.025` (line 39). -/
def take_profit_pct : ℚ := 25 / 1000

/-- `_check_buy_signal` (strategy.py lines 173-183): on signal it assigns
`self.entry_price = current_price` and returns `("buy", "OVERSOLD")`. -/
def check_buy_signal (s : State) (current_price : ℚ) (latest : Row) :
    State × Option (Side × Reason) :=
  if qLtF current_price latest.LowerBand
      && latest.RSI.ltQ 30
      && (latest.MACD_Hist.gtQ 0 || latest.K.ltQ 20)
      && latest.Volume_Ratio.gtQ (11 / 10) then
    ({ s with entry_price := current_price }, some (Side.buy, Reason.OVERSOLD))
  else
    (s, none)

/-- `_check_technical_sell_signal` (lines 201-205). -/
def check_technical_sell_signal (latest : Row) : Bool :=
  (latest.RSI.gtQ 75 && latest.MACD_Hist.ltQ 0)
    || (latest.K.gtQ 80 && latest.Volume_Ratio.ltQ (8 / 10))

/-- `_check_sell_signal` (lines 185-199): stop loss, then take profit,
then the technical exit; no state is mutated on this path. -/
def check_sell_signal (s : State) (current_price : ℚ) (latest : Row) :
    Option (Side × Reason) :=
  if current_price ≤ s.entry_price * (1 - stop_loss_pct) then
    some (Side.sell, Reason.STOP_LOSS)
  else if current_price ≥ s.entry_price * (1 + take_profit_pct) then
    some (Side.sell, Reason.TAKE_PROFIT)
  else if check_technical_sell_signal latest then
    some (Side.sell, Reason.TECH_SIGNAL)
  else
    none

/-- `analyze_market` decision step (lines 102-106): buy branch when the
coin balance is exactly zero, sell branch otherwise. -/
def analyze_market (s : State) (current_coin current_price : ℚ) (latest : Row) :
    State × Option (Side × Reason) :=
  if current_coin = 0 then check_buy_signal s current_price latest
  else (s, check_sell_signal s current_price latest)

end MeanReversion

namespace Momentum

/-- Mutable numeric state of a `MomentumStrategy` instance
(`__init__`, strategy.py lines 257-264). -/
structure State where
  entry_price : ℚ
  position_size : ℚ
  total_fee : ℚ
  trade_count : ℕ
deriving DecidableEq, Repr

/-- `self.stop_loss_pct = 0.015` (line 261, overriding the base value). -/
def stop_loss_pct : ℚ := 15 / 1000

/-- `self.partial_profit_pct = 0.03` (line 262). -/
def partial_profit_pct : ℚ := 3 / 100

/-- `self.final_profit_pct = 0.05` (line 263). -/
def final_profit_pct : ℚ := 5 / 100

/-- `_analyze_buy_signal` (lines 349-359): on signal it assigns
`self.entry_price = current_price` and returns `("buy", "MOMENTUM_ENTRY")`.
Note that `self.position_size` is NOT touched on this path. -/
def analyze_buy_signal (s : State) (current_price : ℚ) (latest : Row) :
    State × Option (Side × Reason) :=
  if latest.RSI.gtQ 50
      && latest.MACD_Hist.gtQ 0
      && qGtF current_price latest.MA
      && latest.Volume_Ratio.gtQ (12 / 10) then
    ({ s with entry_price := current_price },
      some (Side.buy, Reason.MOMENTUM_ENTRY))
  else
    (s, none)

/-- `_check_partial_profit` (lines 385-390). -/
def check_partial_profit (s : State) (current_price : ℚ) : Bool :=
  decide (current_price ≥ s.entry_price * (1 + partial_profit_pct))
    && decide (s.position_size = 1)

/-- `_check_final_profit` (lines 392-397). -/
def check_final_profit (s : State) (current_price : ℚ) : Bool :=
  decide (current_price ≥ s.entry_price * (1 + final_profit_pct))
    && decide (s.position_size = 1 / 2)

/-- `_check_trend_reversal` (lines 399-405). -/
def check_trend_reversal (current_price : ℚ) (latest : Row) : Bool :=
  latest.RSI.ltQ 40 && latest.MACD_Hist.ltQ 0 && qLtF current_price latest.MA

/-- `_analyze_sell_signal` (lines 361-383): stop loss, partial profit,
final profit, trend reversal, in that order, each branch assigning
`self.position_size` as in the source. -/
def analyze_sell_signal (s : State) (current_price : ℚ) (latest : Row) :
    State × Option (Side × Reason) :=
  if current_price ≤ s.entry_price * (1 - stop_loss_pct) then
    ({ s with position_size := 1 }, some (Side.sell, Reason.STOP_LOSS))
  else if check_partial_profit s current_price then
    ({ s with position_size := 1 / 2 }, some (Side.sell, Reason.PARTIAL_PROFIT))
  else if check_final_profit s current_price then
    ({ s with position_size := 0 }, some (Side.sell, Reason.FINAL_PROFIT))
  else if check_trend_reversal current_price latest then
    ({ s with position_size := 0 }, some (Side.sell, Reason.TREND_REVERSAL))
  else
    (s, none)

/-- `analyze_market` decision step of the momentum variant
(lines 278-282). -/
def analyze_market (s : State) (current_coin current_price : ℚ) (latest : Row) :
    State × Option (Side × Reason) :=
  if current_coin = 0 then analyze_buy_signal s current_price latest
  else analyze_sell_signal s current_price latest

/-- Exogenous inputs of one polling cycle: coin balance reported by the
exchange, current price, and the latest indicator row. -/
structure CycleIn where
  coin : ℚ
  price : ℚ
  row : Row
deriving DecidableEq, Repr

/-- Signals emitted by a sequence of momentum cycles, threading the
strategy state exactly as the polling loop does. -/
def run (s : State) : List CycleIn → List (Option (Side × Reason))
  | [] => []
  | c :: rest =>
      let out := analyze_market s c.coin c.price c.row
      out.2 :: run out.1 rest

end Momentum

/-!
Indicator Calculator (`calculate_indicators`, strategy.py lines 46-82),
shared by both strategy classes.  Series are Lean lists in ascending time
order; rolling statistics follow pandas defaults: a window that is not
fully populated (`min_periods = window`) yields NaN, and a populated
window over data containing NaN yields NaN.
-/

/-- Window of the `w` values ending at index `i` (inclusive), as used by a
pandas rolling statistic once populated. -/
def windowEnd (w : ℕ) (xs : List ℚ) (i : ℕ) : List ℚ :=
  (xs.take (i + 1)).drop (i + 1 - w)

/-- Rolling mean of window `w` over a finite series
(`.rolling(window=w).mean()`): NaN until the window is populated. -/
def rolling_mean (w : ℕ) (xs : List ℚ) : List FVal :=
  (List.range xs.length).map (fun i =>
    if i + 1 < w then FVal.nan
    else FVal.val ((windowEnd w xs i).sum / (w : ℚ)))

/-- Rolling sample standard deviation (`.rolling(window=w).std()`, pandas
default ddof = 1).  The square root is taken as the parameter `sqrtQ`,
since an exact square root does not exist inside ℚ; no claim below
inspects a populated standard-deviation value, so every theorem holds for
an arbitrary square-root function. -/
def rolling_std (sqrtQ : ℚ → ℚ) (w : ℕ) (xs : List ℚ) : List FVal :=
  (List.range xs.length).map (fun i =>
    if i + 1 < w then FVal.nan
    else
      let ys := windowEnd w xs i
      let m := ys.sum / (w : ℚ)
      FVal.val (sqrtQ ((ys.map (fun x => (x - m) ^ 2)).sum / ((w : ℚ) - 1))))

/-- Rolling minimum (`.rolling(window=w).min()`). -/
def rolling_min (w : ℕ) (xs : List ℚ) : List FVal :=
  (List.range xs.length).map (fun i =>
    if i + 1 < w then FVal.nan
    else
      match windowEnd w xs i with
      | [] => FVal.nan
      | y :: ys => FVal.val (ys.foldl min y))

/-- Rolling maximum (`.rolling(window=w).max()`). -/
def rolling_max (w : ℕ) (xs : List ℚ) : List FVal :=
  (List.range xs.length).map (fun i =>
    if i + 1 < w then FVal.nan
    else
      match windowEnd w xs i with
      | [] => FVal.nan
      | y :: ys => FVal.val (ys.foldl max y))

/-- Extract the finite value of a series entry, if any. -/
def FVal.toFinite : FVal → Option ℚ
  | FVal.val q => some q
  | _ => none

/-- Rolling mean over a series that may contain NaN entries (the `%K` and
gain/loss series): NaN when the window is not populated or contains any
non-finite entry, matching pandas. -/
def rolling_mean_f (w : ℕ) (xs : List FVal) : List FVal :=
  (List.range xs.length).map (fun i =>
    if i + 1 < w then FVal.nan
    else
      match ((xs.take (i + 1)).drop (i + 1 - w)).mapM FVal.toFinite with
      | some ys => FVal.val (ys.sum / (w : ℚ))
      | none => FVal.nan)

/-- Tail of an exponentially weighted mean with smoothing factor `α`. -/
def ewmAux (α : ℚ) (prev : ℚ) : List ℚ → List ℚ
  | [] => []
  | y :: ys =>
      let e := (1 - α) * prev + α * y
      e :: ewmAux α e ys

/-- `series.ewm(span=span, adjust=False).mean()`: seeded by the first
value, then each step blends previous EWM and new value with
α = 2/(span+1). -/
def ewm (span : ℚ) : List ℚ → List ℚ
  | [] => []
  | x :: ys => x :: ewmAux (2 / (span + 1)) x ys

/-- `df["close"].diff()`: NaN at index 0, consecutive difference after. -/
def diff (xs : List ℚ) : List FVal :=
  (List.range xs.length).map (fun i =>
    if i = 0 then FVal.nan
    else FVal.val (xs.getD i 0 - xs.getD (i - 1) 0))

/-- `delta.where(delta > 0, 0)`: keep where positive, else 0.  A NaN entry
compares false and is therefore replaced by 0, as in pandas. -/
def where_gt0 (f : FVal) : FVal :=
  if f.gtQ 0 then f else FVal.val 0

/-- `delta.where(delta < 0, 0)`: keep where negative, else 0. -/
def where_lt0 (f : FVal) : FVal :=
  if f.ltQ 0 then f else FVal.val 0

/-- Gain series average of the RSI computation (line 58):
`(delta.where(delta > 0, 0)).rolling(window=14).mean()`. -/
def gain_column (closes : List ℚ) : List FVal :=
  rolling_mean_f 14 ((diff closes).map where_gt0)

/-- Loss series average of the RSI computation (line 59):
`(-delta.where(delta < 0, 0)).rolling(window=14).mean()`. -/
def loss_column (closes : List ℚ) : List FVal :=
  rolling_mean_f 14 (((diff closes).map where_lt0).map FVal.neg)

/-- RSI column (lines 56-61): `rs = gain / loss`;
`RSI = 100 - (100 / (1 + rs))`, computed with IEEE float semantics. -/
def rsi_column (closes : List ℚ) : List FVal :=
  (List.zipWith FVal.div (gain_column closes) (loss_column closes)).map
    (fun rs => (FVal.val 100).sub ((FVal.val 100).div ((FVal.val 1).add rs)))

/-- Candle dataframe: the renamed base columns produced from the API
candles (`open` is omitted: no computation reads it) plus the indicator
columns, empty until `calculate_indicators` assigns them. -/
structure DataFrame where
  low : List ℚ
  high : List ℚ
  close : List ℚ
  volume : List ℚ
  MA : List FVal
  STD : List FVal
  UpperBand : List FVal
  LowerBand : List FVal
  RSI : List FVal
  MACD : List FVal
  Signal : List FVal
  MACD_Hist : List FVal
  K : List FVal
  D : List FVal
  Volume_MA : List FVal
  Volume_Ratio : List FVal
deriving DecidableEq, Repr

/-- Dataframe as built by `_get_candle_data` before indicator
calculation: base columns only. -/
def DataFrame.ofCandles (low high close volume : List ℚ) : DataFrame :=
  ⟨low, high, close, volume, [], [], [], [], [], [], [], [], [], [], [], []⟩

/-- `calculate_indicators(df, period, k)` (strategy.py lines 46-82).  The
callers use the default arguments `period = 15`, `k = 2`. -/
def calculate_indicators (sqrtQ : ℚ → ℚ) (period : ℕ) (k : ℚ)
    (df : DataFrame) : DataFrame :=
  let ma := rolling_mean period df.close
  let std := rolling_std sqrtQ period df.close
  let upper := List.zipWith FVal.add ma (std.map (fun s => (FVal.val k).mul s))
  let lower := List.zipWith FVal.sub ma (std.map (fun s => (FVal.val k).mul s))
  let rsi := rsi_column df.close
  let exp1 := ewm 12 df.close
  let exp2 := ewm 26 df.close
  let macd := List.zipWith (fun a b => a - b) exp1 exp2
  let signalLine := ewm 9 macd
  let hist := List.zipWith (fun a b => FVal.val (a - b)) macd signalLine
  let low_min := rolling_min 14 df.low
  let high_max := rolling_max 14 df.high
  let knum := List.zipWith FVal.sub (df.close.map FVal.val) low_min
  let kden := List.zipWith FVal.sub high_max low_min
  let kcol := (List.zipWith FVal.div knum kden).map (fun x => x.mul (FVal.val 100))
  let dcol := rolling_mean_f 3 kcol
  let volume_ma := rolling_mean 20 df.volume
  let volume_ratio := List.zipWith FVal.div (df.volume.map FVal.val) volume_ma
  { df with
      MA := ma
      STD := std
      UpperBand := upper
      LowerBand := lower
      RSI := rsi
      MACD := macd.map FVal.val
      Signal := signalLine.map FVal.val
      MACD_Hist := hist
      K := kcol
      D := dcol
      Volume_MA := volume_ma
      Volume_Ratio := volume_ratio }

/-- `df.iloc[-1]` restricted to the fields the evaluators read. -/
def lastRow (df : DataFrame) : Row :=
  let i := df.close.length - 1
  { MA := df.MA.getD i FVal.nan
    LowerBand := df.LowerBand.getD i FVal.nan
    RSI := df.RSI.getD i FVal.nan
    MACD_Hist := df.MACD_Hist.getD i FVal.nan
    K := df.K.getD i FVal.nan
    Volume_Ratio := df.Volume_Ratio.getD i FVal.nan }

/-- Mean-reversion `analyze_market` including the candle preprocessing
(lines 84-111): indicators are computed with the default arguments and
the decision is taken on the latest row. -/
def MeanReversion.analyze_market_full (sqrtQ : ℚ → ℚ)
    (s : MeanReversion.State) (current_coin current_price : ℚ)
    (df0 : DataFrame) : MeanReversion.State × Option (Side × Reason) :=
  let df := calculate_indicators sqrtQ 15 2 df0
  MeanReversion.analyze_market s current_coin current_price (lastRow df)

/-- Momentum `analyze_market` including the candle preprocessing
(lines 266-347). -/
def Momentum.analyze_market_full (sqrtQ : ℚ → ℚ)
    (s : Momentum.State) (current_coin current_price : ℚ)
    (df0 : DataFrame) : Momentum.State × Option (Side × Reason) :=
  let df := calculate_indicators sqrtQ 15 2 df0
  Momentum.analyze_market s current_coin current_price (lastRow df)

/-!
Trade execution (`execute_trade` and helpers, strategy.py lines 207-251,
inherited unchanged by `MomentumStrategy`), together with the
attribute/method surface it relies on.  Python-level failures are modelled
in an `Except` monad: a call with too few positional arguments raises
`TypeError` at the call, a read of an attribute never assigned raises
`AttributeError`, and a call of a method the `UpbitAPI` class does not
define raises `AttributeError` at the lookup.
-/

/-- Python runtime errors reachable from `execute_trade`. -/
inductive PyError
  | typeError (msg : String)
  | attributeError (name : String)
deriving DecidableEq, Repr

/-- One entry of the balance list returned by `get_account_balance`. -/
structure BalanceItem where
  currency : String
  balance : ℚ
deriving DecidableEq, Repr

/-- Body of `_get_krw_balance(self, balance)` (lines 113-120): the balance
of the first entry whose currency is KRW, defaulting to 0. -/
def get_krw_balance (balance : List BalanceItem) : ℚ :=
  match balance.find? (fun item => item.currency = "KRW") with
  | some item => item.balance
  | none => 0

/-- Body of `_get_coin_balance(self, balance)` (lines 122-133):
`coin` is `self.market.split("-")[1]`. -/
def get_coin_balance (coin : String) (balance : List BalanceItem) : ℚ :=
  match balance.find? (fun item => item.currency = coin) with
  | some item => item.balance
  | none => 0

/-- A call of `self._get_krw_balance(...)` with an explicit positional
argument list: the signature requires exactly one argument, so the call
`self._get_krw_balance()` at line 221 raises TypeError. -/
def call_get_krw_balance (args : List (List BalanceItem)) :
    Except PyError ℚ :=
  match args with
  | [balance] => Except.ok (get_krw_balance balance)
  | _ => Except.error (PyError.typeError
      "_get_krw_balance missing 1 required positional argument: balance")

/-- A call of `self._get_coin_balance(...)` with an explicit positional
argument list: the call `self._get_coin_balance()` at line 232 supplies
none and raises TypeError. -/
def call_get_coin_balance (coin : String) (args : List (List BalanceItem)) :
    Except PyError ℚ :=
  match args with
  | [balance] => Except.ok (get_coin_balance coin balance)
  | _ => Except.error (PyError.typeError
      "_get_coin_balance missing 1 required positional argument: balance")

/-- Numeric attributes assigned on a `MeanReversionStrategy` instance by
`__init__` (lines 30-44).  `max_order_amount` and `fee` are referenced by
`_calculate_buy_volume` but are assigned nowhere in the repository, so
they are absent from the table. -/
def MeanReversion.numeric_attrs (s : MeanReversion.State) :
    String → Option ℚ := fun name =>
  if name = "rsi_period" then some 14
  else if name = "rsi_buy_threshold" then some 30
  else if name = "rsi_sell_threshold" then some 70
  else if name = "entry_price" then some s.entry_price
  else if name = "stop_loss_pct" then some MeanReversion.stop_loss_pct
  else if name = "take_profit_pct" then some MeanReversion.take_profit_pct
  else if name = "total_fee" then some s.total_fee
  else if name = "trade_count" then some (s.trade_count : ℚ)
  else none

/-- Numeric attributes assigned on a `MomentumStrategy` instance
(`__init__` lines 257-264 after the inherited assignments).  Again neither
`max_order_amount` nor `fee` is ever assigned. -/
def Momentum.numeric_attrs (s : Momentum.State) : String → Option ℚ :=
  fun name =>
  if name = "rsi_period" then some 14
  else if name = "rsi_buy_threshold" then some 30
  else if name = "rsi_sell_threshold" then some 70
  else if name = "entry_price" then some s.entry_price
  else if name = "stop_loss_pct" then some Momentum.stop_loss_pct
  else if name = "partial_profit_pct" then some Momentum.partial_profit_pct
  else if name = "final_profit_pct" then some Momentum.final_profit_pct
  else if name = "position_size" then some s.position_size
  else if name = "total_fee" then some s.total_fee
  else if name = "trade_count" then some (s.trade_count : ℚ)
  else none

/-- Attribute read `self.<name>` against an instance attribute table:
AttributeError when the attribute was never assigned. -/
def getattrQ (attrs : String → Option ℚ) (name : String) :
    Except PyError ℚ :=
  match attrs name with
  | some v => Except.ok v
  | none => Except.error (PyError.attributeError name)

/-- Methods defined by class `UpbitAPI` (upbit_api.py lines 10-116).
`place_buy_order` and `place_sell_order` are not among them. -/
def upbit_api_methods : List String :=
  ["_get_headers", "get_current_price", "get_minute_candle",
   "get_account_balance", "place_order", "get_order_status",
   "cancel_order", "get_order_book", "get_daily_candle"]

/-- Method lookup `self.api.<name>`: AttributeError when `UpbitAPI`
defines no such method. -/
def api_method (name : String) : Except PyError Unit :=
  if name ∈ upbit_api_methods then Except.ok () else
    Except.error (PyError.attributeError name)

/-- Python `round(x, 8)` modelled as rounding half up at the eighth
decimal (Python rounds half to even; the call is unreachable, the
attribute reads above it always raise first, so the tie-breaking rule is
irrelevant to every theorem). -/
def roundTo8 (q : ℚ) : ℚ :=
  ((⌊q * 100000000 + 1 / 2⌋ : ℤ) : ℚ) / 100000000

/-- `_calculate_buy_volume(self, available_krw, current_price)`
(lines 242-251): `order_amount = min(available_krw, self.max_order_amount
or available_krw)`; `actual_amount = order_amount / (1 + self.fee)`;
returns `round(actual_amount / current_price, 8)`.  The first attribute
read already raises AttributeError on every instance. -/
def calculate_buy_volume (attrs : String → Option ℚ)
    (available_krw current_price : ℚ) : Except PyError ℚ := do
  let max_order_amount ← getattrQ attrs "max_order_amount"
  let order_amount := min available_krw
    (if max_order_amount = 0 then available_krw else max_order_amount)
  let fee ← getattrQ attrs "fee"
  let actual_amount := order_amount / (1 + fee)
  pure (roundTo8 (actual_amount / current_price))

/-- An order submitted to the exchange: side and size. -/
structure OrderReq where
  side : Side
  size : ℚ
deriving DecidableEq, Repr

/-- Statements of the inner `try` of `_execute_buy_order` (lines 219-228):
balance lookup (called with no argument), price lookup, volume
calculation, then the `place_buy_order` method lookup and call.  The
result lists the orders that reached the API. -/
def execute_buy_order_body (attrs : String → Option ℚ)
    (current_price : ℚ) : Except PyError (List OrderReq) := do
  let balance ← call_get_krw_balance []
  let volume ← calculate_buy_volume attrs balance current_price
  let _ ← api_method "place_buy_order"
  pure [⟨Side.buy, volume⟩]

/-- `_execute_buy_order` (lines 219-228): any exception from the body is
caught by its own handler and logged; no exception escapes. -/
def execute_buy_order (attrs : String → Option ℚ) (current_price : ℚ) :
    List OrderReq × Option PyError :=
  match execute_buy_order_body attrs current_price with
  | Except.ok orders => (orders, none)
  | Except.error e => ([], some e)

/-- Statements of the inner `try` of `_execute_sell_order`
(lines 230-240): coin balance lookup (called with no argument), price
lookup, then the `place_sell_order` method lookup and call. -/
def execute_sell_order_body (coin : String) :
    Except PyError (List OrderReq) := do
  let coin_balance ← call_get_coin_balance coin []
  let _ ← api_method "place_sell_order"
  pure [⟨Side.sell, coin_balance⟩]

/-- `_execute_sell_order` (lines 230-240) with its own catch-all
handler. -/
def execute_sell_order (coin : String) : List OrderReq × Option PyError :=
  match execute_sell_order_body coin with
  | Except.ok orders => (orders, none)
  | Except.error e => ([], some e)

/-- `execute_trade(self, signal)` (lines 207-217): early return on a
falsy signal, otherwise dispatch to the buy or sell helper (whose own
handlers already swallow every exception).  It returns `None` in Python;
the model returns the orders that reached the API and the exception that
was caught and logged, if any. -/
def execute_trade (attrs : String → Option ℚ) (coin : String)
    (current_price : ℚ) : Option Side → List OrderReq × Option PyError
  | none => ([], none)
  | some Side.buy => execute_buy_order attrs current_price
  | some Side.sell => execute_sell_order coin

/-- One full mean-reversion polling cycle at the model's granularity:
evaluation (which mutates the strategy state when it emits a signal)
followed by trade execution of the emitted signal. -/
def MeanReversion.cycle (s : MeanReversion.State)
    (current_coin current_price : ℚ) (latest : Row) :
    MeanReversion.State × List OrderReq × Option PyError :=
  let out := MeanReversion.analyze_market s current_coin current_price latest
  let ex := execute_trade (MeanReversion.numeric_attrs out.1) "BTC"
    current_price (out.2.map Prod.fst)
  (out.1, ex.1, ex.2)

/-- One full momentum polling cycle. -/
def Momentum.cycle (s : Momentum.State)
    (current_coin current_price : ℚ) (latest : Row) :
    Momentum.State × List OrderReq × Option PyError :=
  let out := Momentum.analyze_market s current_coin current_price latest
  let ex := execute_trade (Momentum.numeric_attrs out.1) "BTC"
    current_price (out.2.map Prod.fst)
  (out.1, ex.1, ex.2)

/-!
Concrete inputs used by the witnesses and counterexamples below.
-/

/-- Initial momentum state set by `__init__`: `entry_price = 0`,
`position_size = 1.0`, `total_fee = 0`, `trade_count = 0`. -/
def momInit : Momentum.State := ⟨0, 1, 0, 0⟩

/-- A latest row satisfying all four momentum entry conditions at price
100: RSI 60 > 50, MACD histogram 1 > 0, 100 > MA 50, volume ratio 2 >
1.2. -/
def momBuyRow : Row :=
  ⟨FVal.val 50, FVal.nan, FVal.val 60, FVal.val 1, FVal.nan, FVal.val 2⟩

/-- A latest row satisfying all four mean-reversion entry conditions at
price 100: 100 < LowerBand 200, RSI 25 < 30, MACD histogram 1 > 0,
volume ratio 2 > 1.1. -/
def mrBuyRow : Row :=
  ⟨FVal.nan, FVal.val 200, FVal.val 25, FVal.val 1, FVal.nan, FVal.val 2⟩

/-- A latest row with every indicator NaN (no technical condition can
fire). -/
def nanRow : Row :=
  ⟨FVal.nan, FVal.nan, FVal.nan, FVal.nan, FVal.nan, FVal.nan⟩

/-- A latest row on which the mean-reversion technical exit holds
(RSI 80 > 75 and MACD histogram −1 < 0) and the momentum trend-reversal
conditions hold at price 90 (RSI 80 is not < 40, so use the K/volume leg
for mean reversion as well: K 90 > 80, volume ratio 0.5 < 0.8). -/
def techSellRow : Row :=
  ⟨FVal.val 200, FVal.nan, FVal.val 80, FVal.val (-1), FVal.val 90,
    FVal.val (1 / 2)⟩

/-- A latest row on which the momentum trend-reversal conditions hold at
price 90: RSI 30 < 40, MACD histogram −1 < 0, 90 < MA 200. -/
def trendRevRow : Row :=
  ⟨FVal.val 200, FVal.nan, FVal.val 30, FVal.val (-1), FVal.nan,
    FVal.nan⟩

/-- Four momentum cycles: entry at 100, partial profit at 103, the
exchange reports a flat balance again, re-entry at 100 (the fraction is
still 0.5), then price 105 fires the final profit with no partial profit
in the second holding episode. -/
def finalSkipsPartialTrace : List Momentum.CycleIn :=
  [⟨0, 100, momBuyRow⟩, ⟨1, 103, nanRow⟩, ⟨0, 100, momBuyRow⟩,
   ⟨1, 105, nanRow⟩]

/-- Three momentum cycles of one clean episode: entry at 100, partial
profit at 103, final profit at 105. -/
def cleanEpisodeTrace : List Momentum.CycleIn :=
  [⟨0, 100, momBuyRow⟩, ⟨1, 103, nanRow⟩, ⟨1, 105, nanRow⟩]

/-- A five-candle dataframe (constant price 100, volume 1): far shorter
than every lookback window of 14, 15 or 20. -/
def df5 : DataFrame :=
  DataFrame.ofCandles [100, 100, 100, 100, 100] [100, 100, 100, 100, 100]
    [100, 100, 100, 100, 100] [1, 1, 1, 1, 1]

/-- Fourteen constant closes: every delta is zero, so at the first
populated RSI row both the gain average and the loss average are 0. -/
def flatCloses : List ℚ := List.replicate 14 100

/-- Fifteen strictly increasing closes: every delta is +1, so at a
populated row the loss average is 0 and the gain average is 1. -/
def risingCloses : List ℚ :=
  [100, 101, 102, 103, 104, 105, 106, 107, 108, 109, 110, 111, 112, 113,
   114]

/-- The property claimed of momentum signal sequences: a FINAL_PROFIT at
position `k` is preceded by a PARTIAL_PROFIT at some `j < k` with no buy
entry strictly between `j` and `k` (same holding episode). -/
def FinalAfterPartialInEpisode (sigs : List (Option (Side × Reason))) :
    Prop :=
  ∀ k ∈ List.range sigs.length,
    sigs.getD k none = some (Side.sell, Reason.FINAL_PROFIT) →
      ∃ j ∈ List.range k,
        sigs.getD j none = some (Side.sell, Reason.PARTIAL_PROFIT)
          ∧ ∀ m ∈ List.range k, j < m →
              sigs.getD m none ≠ some (Side.buy, Reason.MOMENTUM_ENTRY)

/-!
Helper lemmas shared by the claim theorems.
-/

/-- Indexing a zipWith by getD, inside both ranges. -/
theorem zipWith_getD {α β γ : Type} (f : α → β → γ) (as : List α)
    (bs : List β) (i : ℕ) (ha : i < as.length) (hb : i < bs.length)
    (da : α) (db : β) (dc : γ) :
    (List.zipWith f as bs).getD i dc = f (as.getD i da) (bs.getD i db) := by
  induction as generalizing bs i with
  | nil => exact absurd ha (by simp)
  | cons a as ih =>
    cases bs with
    | nil => exact absurd hb (by simp)
    | cons b bs =>
      cases i with
      | zero => rfl
      | succ i =>
        simp only [List.zipWith_cons_cons, List.getD_cons_succ]
        exact ih bs i (by simpa using ha) (by simpa using hb)

/-- Indexing a map by getD, inside the range. -/
theorem map_getD {α β : Type} (f : α → β) (xs : List α) (i : ℕ)
    (h : i < xs.length) (d : β) (d0 : α) :
    (xs.map f).getD i d = f (xs.getD i d0) := by
  induction xs generalizing i with
  | nil => exact absurd h (by simp)
  | cons x xs ih =>
    cases i with
    | zero => rfl
    | succ i =>
      simp only [List.map_cons, List.getD_cons_succ]
      exact ih i (by simpa using h)

/-- Indexing a map over a range by getD, inside the range. -/
theorem rangeMap_getD {γ : Type} (g : ℕ → γ) (n i : ℕ) (h : i < n)
    (d : γ) :
    ((List.range n).map g).getD i d = g i := by
  have h2 : i < (List.range n).length := by simpa using h
  rw [map_getD g (List.range n) i h2 d 0]
  congr 1
  rw [List.getD_eq_getElem (List.range n) 0 h2]
  simp

/-- Dividing anything by NaN gives NaN. -/
theorem FVal.div_nan (x : FVal) : x.div FVal.nan = FVal.nan := by
  cases x <;> rfl

/-- The momentum buy path never emits a sell signal. -/
theorem Momentum.buy_signal_not_sell (s : Momentum.State) (p : ℚ) (r : Row)
    (re : Reason) :
    (Momentum.analyze_buy_signal s p r).2 ≠ some (Side.sell, re) := by
  unfold Momentum.analyze_buy_signal
  split <;> simp

/-- A FINAL_PROFIT sell can only be emitted from fraction 0.5
(`_check_final_profit` guards on `position_size == 0.5`). -/
theorem Momentum.sell_final_requires_half (s : Momentum.State) (p : ℚ)
    (r : Row)
    (h : (Momentum.analyze_sell_signal s p r).2
        = some (Side.sell, Reason.FINAL_PROFIT)) :
    s.position_size = 1 / 2 := by
  unfold Momentum.analyze_sell_signal at h
  split at h
  · simp at h
  · split at h
    · simp at h
    · split at h
      · rename_i hfin
        have := (Bool.and_eq_true _ _).mp hfin
        exact of_decide_eq_true this.2
      · split at h <;> simp at h

/-- A FINAL_PROFIT emitted by a full momentum evaluation requires the
pre-state fraction 0.5. -/
theorem Momentum.market_final_requires_half (s : Momentum.State)
    (coin p : ℚ) (r : Row)
    (h : (Momentum.analyze_market s coin p r).2
        = some (Side.sell, Reason.FINAL_PROFIT)) :
    s.position_size = 1 / 2 := by
  unfold Momentum.analyze_market at h
  split at h
  · exact absurd h (Momentum.buy_signal_not_sell s p r Reason.FINAL_PROFIT)
  · exact Momentum.sell_final_requires_half s p r h

/-- After one momentum evaluation the fraction is 0.5 only if it was
already 0.5 (buy and no-signal paths leave it unchanged, stop loss sets
1.0, final profit and trend reversal set 0.0) or the evaluation emitted
PARTIAL_PROFIT. -/
theorem Momentum.half_after_step (s : Momentum.State) (coin p : ℚ)
    (r : Row)
    (h : (Momentum.analyze_market s coin p r).1.position_size = 1 / 2) :
    s.position_size = 1 / 2
      ∨ (Momentum.analyze_market s coin p r).2
          = some (Side.sell, Reason.PARTIAL_PROFIT) := by
  by_cases h0 : coin = 0
  · left
    unfold Momentum.analyze_market at h
    rw [if_pos h0] at h
    unfold Momentum.analyze_buy_signal at h
    split at h <;> simpa using h
  · unfold Momentum.analyze_market at h ⊢
    rw [if_neg h0] at h ⊢
    unfold Momentum.analyze_sell_signal at h ⊢
    split at h
    · norm_num at h
    · rename_i hstop
      rw [if_neg hstop]
      split at h
      · rename_i hpart
        rw [if_pos hpart]
        exact Or.inr rfl
      · rename_i hpart
        rw [if_neg hpart]
        split at h
        · norm_num at h
        · rename_i hfin
          rw [if_neg hfin]
          split at h
          · norm_num at h
          · rename_i htrend
            rw [if_neg htrend]
            exact Or.inl h

/-- C1: in the Flat state, when the latest row has RSI > 50, MACD
histogram > 0, price > MA and volume ratio > 1.2, the momentum evaluator
returns Buy("MOMENTUM_ENTRY") and sets the entry price to the current
price — but, contrary to the claim, it does NOT reset the position-size
fraction: `_analyze_buy_signal` leaves `self.position_size` unchanged
(amended claim; see the counterexample for the reset part). -/
theorem momentum_entry_sets_entry_price_only (s : Momentum.State)
    (p : ℚ) (r : Row)
    (h1 : r.RSI.gtQ 50 = true) (h2 : r.MACD_Hist.gtQ 0 = true)
    (h3 : qGtF p r.MA = true) (h4 : r.Volume_Ratio.gtQ (12 / 10) = true) :
    Momentum.analyze_buy_signal s p r
        = ({ s with entry_price := p },
            some (Side.buy, Reason.MOMENTUM_ENTRY))
      ∧ (Momentum.analyze_buy_signal s p r).1.position_size
          = s.position_size := by
  unfold Momentum.analyze_buy_signal
  rw [h1, h2, h3, h4]
  exact ⟨rfl, rfl⟩

/-- C1 witness: the theorem applied to the initial state at price 100 on
a row with RSI 60, histogram 1, MA 50 and volume ratio 2. -/
theorem momentum_entry_sets_entry_price_only_witness :
    (momBuyRow.RSI.gtQ 50 = true ∧ momBuyRow.MACD_Hist.gtQ 0 = true
        ∧ qGtF 100 momBuyRow.MA = true
        ∧ momBuyRow.Volume_Ratio.gtQ (12 / 10) = true)
      ∧ (Momentum.analyze_buy_signal momInit 100 momBuyRow
            = ({ momInit with entry_price := 100 },
                some (Side.buy, Reason.MOMENTUM_ENTRY))
          ∧ (Momentum.analyze_buy_signal momInit 100 momBuyRow).1.position_size
              = momInit.position_size) :=
  ⟨⟨by with_unfolding_all decide, by with_unfolding_all decide,
      by with_unfolding_all decide, by with_unfolding_all decide⟩,
    momentum_entry_sets_entry_price_only momInit 100 momBuyRow
      (by with_unfolding_all decide) (by with_unfolding_all decide)
      (by with_unfolding_all decide) (by with_unfolding_all decide)⟩

/-- C1 counterexample: from a state whose fraction is 0.5 (left over from
a partial exit of an earlier episode), the momentum entry fires but the
fraction stays 0.5 instead of being reset to 1.0 as the claim states. -/
theorem momentum_entry_does_not_reset_fraction :
    (Momentum.analyze_buy_signal ⟨0, 1 / 2, 0, 0⟩ 100 momBuyRow).2
        = some (Side.buy, Reason.MOMENTUM_ENTRY)
      ∧ ¬ (Momentum.analyze_buy_signal ⟨0, 1 / 2, 0, 0⟩ 100
            momBuyRow).1.position_size = 1 := by
  with_unfolding_all decide

/-- C2 (amended): for every momentum run whose starting fraction is not
0.5 — in particular a fresh episode entered with fraction 1.0 — a
FINAL_PROFIT signal at position `k` is preceded by a PARTIAL_PROFIT
signal at some earlier position.  (As stated the claim is false, because
a buy entry does not reset the fraction and a fraction of 0.5 carries
over into the next episode; see the counterexample.) -/
theorem momentum_final_profit_requires_partial_first (s : Momentum.State)
    (ins : List Momentum.CycleIn) (h : s.position_size ≠ 1 / 2) (k : ℕ)
    (hk : (Momentum.run s ins).getD k none
        = some (Side.sell, Reason.FINAL_PROFIT)) :
    ∃ j < k, (Momentum.run s ins).getD j none
        = some (Side.sell, Reason.PARTIAL_PROFIT) := by
  induction ins generalizing s k with
  | nil => simp [Momentum.run] at hk
  | cons c rest ih =>
    have hrun : Momentum.run s (c :: rest)
        = (Momentum.analyze_market s c.coin c.price c.row).2
            :: Momentum.run (Momentum.analyze_market s c.coin c.price
                c.row).1 rest := rfl
    rw [hrun] at hk ⊢
    cases k with
    | zero =>
      rw [List.getD_cons_zero] at hk
      exact absurd
        (Momentum.market_final_requires_half s c.coin c.price c.row hk) h
    | succ k =>
      rw [List.getD_cons_succ] at hk
      by_cases h2 : (Momentum.analyze_market s c.coin c.price
          c.row).1.position_size = 1 / 2
      · rcases Momentum.half_after_step s c.coin c.price c.row h2 with
          hs | hp
        · exact absurd hs h
        · exact ⟨0, Nat.succ_pos k, by rw [List.getD_cons_zero]; exact hp⟩
      · obtain ⟨j, hj, hpj⟩ := ih _ h2 k hk
        exact ⟨j + 1, Nat.succ_lt_succ hj,
          by rw [List.getD_cons_succ]; exact hpj⟩

/-- C2 witness: on a clean episode (entry at 100 with fraction 1.0,
partial profit at 103, final profit at 105) the theorem produces the
earlier PARTIAL_PROFIT for the FINAL_PROFIT at position 2. -/
theorem momentum_final_profit_requires_partial_first_witness :
    momInit.position_size ≠ 1 / 2
      ∧ (Momentum.run momInit cleanEpisodeTrace).getD 2 none
          = some (Side.sell, Reason.FINAL_PROFIT)
      ∧ ∃ j < 2, (Momentum.run momInit cleanEpisodeTrace).getD j none
          = some (Side.sell, Reason.PARTIAL_PROFIT) :=
  ⟨by with_unfolding_all decide, by with_unfolding_all decide,
    momentum_final_profit_requires_partial_first momInit cleanEpisodeTrace
      (by with_unfolding_all decide) 2 (by with_unfolding_all decide)⟩

/-- C2 counterexample: starting from the initial state, the four-cycle
trace buy(100), PARTIAL_PROFIT(103), buy(100), FINAL_PROFIT(105) is
reachable, and its FINAL_PROFIT has no PARTIAL_PROFIT inside the same
holding episode (the fraction 0.5 carried over because the second buy
did not reset it), refuting the claim as stated. -/
theorem momentum_final_profit_skips_episode :
    Momentum.run momInit finalSkipsPartialTrace
        = [some (Side.buy, Reason.MOMENTUM_ENTRY),
           some (Side.sell, Reason.PARTIAL_PROFIT),
           some (Side.buy, Reason.MOMENTUM_ENTRY),
           some (Side.sell, Reason.FINAL_PROFIT)]
      ∧ ¬ FinalAfterPartialInEpisode
          (Momentum.run momInit finalSkipsPartialTrace) := by
  constructor
  · with_unfolding_all decide
  · unfold FinalAfterPartialInEpisode
    with_unfolding_all decide

/-- With fewer candles than the 20-period volume window, the volume
ratio of the latest row is NaN (its rolling mean is NaN). -/
theorem volume_ratio_of_short_history (sqrtQ : ℚ → ℚ) (period : ℕ)
    (k : ℚ) (df0 : DataFrame)
    (hlen : df0.volume.length = df0.close.length)
    (hn : df0.close.length < 20) :
    (lastRow (calculate_indicators sqrtQ period k df0)).Volume_Ratio
      = FVal.nan := by
  have hshape : (lastRow (calculate_indicators sqrtQ period k
        df0)).Volume_Ratio
      = (List.zipWith FVal.div (df0.volume.map FVal.val)
          (rolling_mean 20 df0.volume)).getD
          (df0.close.length - 1) FVal.nan := rfl
  rw [hshape]
  rcases Nat.eq_zero_or_pos df0.close.length with h0 | h1
  · have hv : df0.volume = [] := by
      rw [← List.length_eq_zero, hlen, h0]
    simp [hv]
  · have hi : df0.close.length - 1 < df0.volume.length := by
      rw [hlen]; omega
    have hmap : df0.close.length - 1 < (df0.volume.map FVal.val).length :=
      by simpa using hi
    have hroll : df0.close.length - 1 < (rolling_mean 20
        df0.volume).length := by
      simpa [rolling_mean] using hi
    rw [zipWith_getD FVal.div (df0.volume.map FVal.val)
      (rolling_mean 20 df0.volume) (df0.close.length - 1) hmap hroll
      FVal.nan FVal.nan FVal.nan]
    have hr : (rolling_mean 20 df0.volume).getD (df0.close.length - 1)
        FVal.nan = FVal.nan := by
      unfold rolling_mean
      rw [rangeMap_getD _ _ _ hi FVal.nan]
      rw [if_pos (by omega)]
    rw [hr, FVal.div_nan]

/-- C3 (amended): with fewer than 20 candles (in particular the claimed
scenario of 5 < 15), the volume-ratio conjunct of either entry condition
is NaN, so in the Flat state both strategies return (None, None) for
every price and leave the state unchanged.  (As stated the claim is
false for the InPosition state: the stop-loss and take-profit exits
compare only prices and fire regardless of indicator values; see the
counterexample.) -/
theorem short_history_flat_no_signal (sqrtQ : ℚ → ℚ)
    (sE : MeanReversion.State) (sM : Momentum.State) (price : ℚ)
    (df0 : DataFrame) (hlen : df0.volume.length = df0.close.length)
    (hn : df0.close.length < 20) :
    MeanReversion.analyze_market_full sqrtQ sE 0 price df0 = (sE, none)
      ∧ Momentum.analyze_market_full sqrtQ sM 0 price df0
          = (sM, none) := by
  have hvr := volume_ratio_of_short_history sqrtQ 15 2 df0 hlen hn
  constructor
  · show MeanReversion.analyze_market sE 0 price
      (lastRow (calculate_indicators sqrtQ 15 2 df0)) = (sE, none)
    unfold MeanReversion.analyze_market
    rw [if_pos rfl]
    unfold MeanReversion.check_buy_signal
    rw [hvr]
    simp [FVal.gtQ]
  · show Momentum.analyze_market sM 0 price
      (lastRow (calculate_indicators sqrtQ 15 2 df0)) = (sM, none)
    unfold Momentum.analyze_market
    rw [if_pos rfl]
    unfold Momentum.analyze_buy_signal
    rw [hvr]
    simp [FVal.gtQ]

/-- C3 witness: the theorem applied to the concrete five-candle
dataframe (the square-root parameter of the standard deviation is
irrelevant: no 15-period window is populated). -/
theorem short_history_flat_no_signal_witness :
    df5.volume.length = df5.close.length ∧ df5.close.length < 20
      ∧ (MeanReversion.analyze_market_full (fun q => q) ⟨0, 0, 0⟩ 0 100
            df5 = (⟨0, 0, 0⟩, none)
          ∧ Momentum.analyze_market_full (fun q => q) momInit 0 100 df5
            = (momInit, none)) :=
  ⟨by with_unfolding_all decide, by with_unfolding_all decide,
    short_history_flat_no_signal (fun q => q) ⟨0, 0, 0⟩ momInit 100 df5
      (by with_unfolding_all decide) (by with_unfolding_all decide)⟩

/-- C3 counterexample: on the same five-candle dataframe, an InPosition
evaluation with entry price 100 and current price 90 returns
Sell("STOP_LOSS") — not (None, None) — because the stop-loss check uses
no indicator value. -/
theorem short_history_in_position_still_sells :
    df5.close.length = 5
      ∧ (MeanReversion.analyze_market_full (fun q => q) ⟨100, 0, 0⟩ 1 90
            df5).2 = some (Side.sell, Reason.STOP_LOSS) := by
  constructor
  · with_unfolding_all decide
  · with_unfolding_all decide

/-- A mean-reversion evaluation never changes `total_fee` or
`trade_count` (only `entry_price` is assigned, on the buy path). -/
theorem MeanReversion.mr_analyze_preserves_counters
    (s : MeanReversion.State) (coin p : ℚ) (r : Row) :
    (MeanReversion.analyze_market s coin p r).1.total_fee = s.total_fee
      ∧ (MeanReversion.analyze_market s coin p r).1.trade_count
          = s.trade_count := by
  unfold MeanReversion.analyze_market MeanReversion.check_buy_signal
  split
  · split <;> exact ⟨rfl, rfl⟩
  · exact ⟨rfl, rfl⟩

/-- A momentum evaluation never changes `total_fee` or `trade_count`
(only `entry_price` and `position_size` are assigned). -/
theorem Momentum.mom_analyze_preserves_counters (s : Momentum.State)
    (coin p : ℚ) (r : Row) :
    (Momentum.analyze_market s coin p r).1.total_fee = s.total_fee
      ∧ (Momentum.analyze_market s coin p r).1.trade_count
          = s.trade_count := by
  unfold Momentum.analyze_market Momentum.analyze_buy_signal
    Momentum.analyze_sell_signal
  split
  · split <;> exact ⟨rfl, rfl⟩
  · split
    · exact ⟨rfl, rfl⟩
    · split
      · exact ⟨rfl, rfl⟩
      · split
        · exact ⟨rfl, rfl⟩
        · split <;> exact ⟨rfl, rfl⟩

/-- No call of `execute_trade` ever produces an order: the buy and sell
bodies both raise on their first statement, and the handlers swallow the
exception. -/
theorem execute_trade_no_orders (attrs : String → Option ℚ)
    (coin : String) (p : ℚ) (sig : Option Side) :
    (execute_trade attrs coin p sig).1 = [] := by
  cases sig with
  | none => rfl
  | some side => cases side <;> rfl

/-- C4 (amended): the trade-execution step itself never mutates the
strategy state and never submits an order (its helpers raise before any
state assignment or API call), and a full cycle preserves
`total_fee` and `trade_count` for both strategies.  (As stated the claim
is false: `entry_price` and `position_size` are assigned during the
evaluation, when the signal is generated, and a later trade-execution
failure does not roll them back; see the counterexample.) -/
theorem failed_trade_preserves_fee_and_count
    (sE : MeanReversion.State) (sM : Momentum.State)
    (coinE coinM pE pM : ℚ) (rE rM : Row) :
    (MeanReversion.cycle sE coinE pE rE).1.total_fee = sE.total_fee
      ∧ (MeanReversion.cycle sE coinE pE rE).1.trade_count
          = sE.trade_count
      ∧ (Momentum.cycle sM coinM pM rM).1.total_fee = sM.total_fee
      ∧ (Momentum.cycle sM coinM pM rM).1.trade_count = sM.trade_count
      ∧ (MeanReversion.cycle sE coinE pE rE).2.1 = []
      ∧ (Momentum.cycle sM coinM pM rM).2.1 = [] :=
  ⟨(MeanReversion.mr_analyze_preserves_counters sE coinE pE rE).1,
    (MeanReversion.mr_analyze_preserves_counters sE coinE pE rE).2,
    (Momentum.mom_analyze_preserves_counters sM coinM pM rM).1,
    (Momentum.mom_analyze_preserves_counters sM coinM pM rM).2,
    execute_trade_no_orders _ _ _ _,
    execute_trade_no_orders _ _ _ _⟩

/-- C4 counterexample: a flat cycle whose evaluation emits a buy signal
sets `entry_price` to the current price even though the trade-execution
step fails with a caught exception, so the state does not equal its
pre-cycle value. -/
theorem evaluation_mutates_entry_price_before_trade :
    (MeanReversion.cycle ⟨0, 0, 0⟩ 0 100 mrBuyRow).2.2
        = some (PyError.typeError
            "_get_krw_balance missing 1 required positional argument: balance")
      ∧ ¬ (MeanReversion.cycle ⟨0, 0, 0⟩ 0 100 mrBuyRow).1
          = (⟨0, 0, 0⟩ : MeanReversion.State) := by
  with_unfolding_all decide

/-- C5: for every signal value `execute_trade` submits no order to the
gateway: the buy path raises TypeError calling `_get_krw_balance` with
no argument (and its volume helper would raise AttributeError on the
never-assigned `max_order_amount`/`fee` attributes of either strategy
class), the sell path raises TypeError calling `_get_coin_balance` with
no argument, `UpbitAPI` defines neither `place_buy_order` nor
`place_sell_order`, and every exception is caught and logged inside the
helpers, so `execute_trade` returns without an order reaching the
API. -/
theorem execute_trade_never_submits_order (attrs : String → Option ℚ)
    (coin : String) (p krw : ℚ) (sE : MeanReversion.State)
    (sM : Momentum.State) :
    execute_trade attrs coin p none = ([], none)
      ∧ execute_trade attrs coin p (some Side.buy)
          = ([], some (PyError.typeError
              "_get_krw_balance missing 1 required positional argument: balance"))
      ∧ execute_trade attrs coin p (some Side.sell)
          = ([], some (PyError.typeError
              "_get_coin_balance missing 1 required positional argument: balance"))
      ∧ MeanReversion.numeric_attrs sE "max_order_amount" = none
      ∧ MeanReversion.numeric_attrs sE "fee" = none
      ∧ Momentum.numeric_attrs sM "max_order_amount" = none
      ∧ Momentum.numeric_attrs sM "fee" = none
      ∧ calculate_buy_volume (MeanReversion.numeric_attrs sE) krw p
          = Except.error (PyError.attributeError "max_order_amount")
      ∧ calculate_buy_volume (Momentum.numeric_attrs sM) krw p
          = Except.error (PyError.attributeError "max_order_amount")
      ∧ ¬ "place_buy_order" ∈ upbit_api_methods
      ∧ ¬ "place_sell_order" ∈ upbit_api_methods :=
  ⟨rfl, rfl, rfl, rfl, rfl, rfl, rfl, rfl, rfl,
    by with_unfolding_all decide, by with_unfolding_all decide⟩

/-- The mean-reversion buy path emits no sell signal. -/
theorem MeanReversion.buy_shape (s : MeanReversion.State) (p : ℚ)
    (r : Row) :
    (MeanReversion.check_buy_signal s p r).2 = none
      ∨ (MeanReversion.check_buy_signal s p r).2
          = some (Side.buy, Reason.OVERSOLD) := by
  unfold MeanReversion.check_buy_signal
  split
  · exact Or.inr rfl
  · exact Or.inl rfl

/-- The mean-reversion sell path emits only sell signals. -/
theorem MeanReversion.sell_shape (s : MeanReversion.State) (p : ℚ)
    (r : Row) :
    MeanReversion.check_sell_signal s p r = none
      ∨ ∃ re, MeanReversion.check_sell_signal s p r
          = some (Side.sell, re) := by
  unfold MeanReversion.check_sell_signal
  split
  · exact Or.inr ⟨Reason.STOP_LOSS, rfl⟩
  · split
    · exact Or.inr ⟨Reason.TAKE_PROFIT, rfl⟩
    · split
      · exact Or.inr ⟨Reason.TECH_SIGNAL, rfl⟩
      · exact Or.inl rfl

/-- The momentum buy path emits no sell signal and the momentum sell
path emits only sell signals. -/
theorem Momentum.branch_shapes (s : Momentum.State) (p : ℚ) (r : Row) :
    ((Momentum.analyze_buy_signal s p r).2 = none
        ∨ (Momentum.analyze_buy_signal s p r).2
            = some (Side.buy, Reason.MOMENTUM_ENTRY))
      ∧ ((Momentum.analyze_sell_signal s p r).2 = none
        ∨ ∃ re, (Momentum.analyze_sell_signal s p r).2
            = some (Side.sell, re)) := by
  constructor
  · unfold Momentum.analyze_buy_signal
    split
    · exact Or.inr rfl
    · exact Or.inl rfl
  · unfold Momentum.analyze_sell_signal
    split
    · exact Or.inr ⟨Reason.STOP_LOSS, rfl⟩
    · split
      · exact Or.inr ⟨Reason.PARTIAL_PROFIT, rfl⟩
      · split
        · exact Or.inr ⟨Reason.FINAL_PROFIT, rfl⟩
        · split
          · exact Or.inr ⟨Reason.TREND_REVERSAL, rfl⟩
          · exact Or.inl rfl

/-- C6: with a non-negative coin balance, both strategies emit a buy
signal only when the balance is exactly zero and a sell signal only when
it is positive, and an evaluation never emits a buy and a sell signal in
the same cycle. -/
theorem buy_only_when_flat_sell_only_when_held
    (sE : MeanReversion.State) (sM : Momentum.State) (coin p : ℚ)
    (r : Row) (hc : 0 ≤ coin) :
    (∀ re, (MeanReversion.analyze_market sE coin p r).2
        = some (Side.buy, re) → coin = 0)
      ∧ (∀ re, (MeanReversion.analyze_market sE coin p r).2
          = some (Side.sell, re) → 0 < coin)
      ∧ (∀ re, (Momentum.analyze_market sM coin p r).2
          = some (Side.buy, re) → coin = 0)
      ∧ (∀ re, (Momentum.analyze_market sM coin p r).2
          = some (Side.sell, re) → 0 < coin)
      ∧ ¬ (∃ r1 r2, (MeanReversion.analyze_market sE coin p r).2
            = some (Side.buy, r1)
          ∧ (MeanReversion.analyze_market sE coin p r).2
            = some (Side.sell, r2))
      ∧ ¬ (∃ r1 r2, (Momentum.analyze_market sM coin p r).2
            = some (Side.buy, r1)
          ∧ (Momentum.analyze_market sM coin p r).2
            = some (Side.sell, r2)) := by
  refine ⟨?_, ?_, ?_, ?_, ?_, ?_⟩
  · intro re h
    by_cases h0 : coin = 0
    · exact h0
    · exfalso
      unfold MeanReversion.analyze_market at h
      rw [if_neg h0] at h
      rcases MeanReversion.sell_shape sE p r with hn | ⟨re2, hs⟩
      · rw [show ((sE, MeanReversion.check_sell_signal sE p r) :
            MeanReversion.State × Option (Side × Reason)).2
            = MeanReversion.check_sell_signal sE p r from rfl, hn] at h
        exact Option.noConfusion h
      · rw [show ((sE, MeanReversion.check_sell_signal sE p r) :
            MeanReversion.State × Option (Side × Reason)).2
            = MeanReversion.check_sell_signal sE p r from rfl, hs] at h
        simp at h
  · intro re h
    by_cases h0 : coin = 0
    · exfalso
      unfold MeanReversion.analyze_market at h
      rw [if_pos h0] at h
      rcases MeanReversion.buy_shape sE p r with hn | hb
      · rw [hn] at h
        exact Option.noConfusion h
      · rw [hb] at h
        simp at h
    · exact lt_of_le_of_ne hc (Ne.symm h0)
  · intro re h
    by_cases h0 : coin = 0
    · exact h0
    · exfalso
      unfold Momentum.analyze_market at h
      rw [if_neg h0] at h
      rcases (Momentum.branch_shapes sM p r).2 with hn | ⟨re2, hs⟩
      · rw [hn] at h
        exact Option.noConfusion h
      · rw [hs] at h
        simp at h
  · intro re h
    by_cases h0 : coin = 0
    · exfalso
      unfold Momentum.analyze_market at h
      rw [if_pos h0] at h
      rcases (Momentum.branch_shapes sM p r).1 with hn | hb
      · rw [hn] at h
        exact Option.noConfusion h
      · rw [hb] at h
        simp at h
    · exact lt_of_le_of_ne hc (Ne.symm h0)
  · rintro ⟨r1, r2, h1, h2⟩
    rw [h1] at h2
    simp at h2
  · rintro ⟨r1, r2, h1, h2⟩
    rw [h1] at h2
    simp at h2

/-- C6 witness: the theorem applied at coin balance 0 with both initial
states, price 100 and an all-NaN latest row. -/
theorem buy_only_when_flat_sell_only_when_held_witness :
    (0 : ℚ) ≤ 0
      ∧ ((∀ re, (MeanReversion.analyze_market ⟨0, 0, 0⟩ 0 100 nanRow).2
            = some (Side.buy, re) → (0 : ℚ) = 0)
        ∧ (∀ re, (MeanReversion.analyze_market ⟨0, 0, 0⟩ 0 100 nanRow).2
            = some (Side.sell, re) → (0 : ℚ) < 0)
        ∧ (∀ re, (Momentum.analyze_market momInit 0 100 nanRow).2
            = some (Side.buy, re) → (0 : ℚ) = 0)
        ∧ (∀ re, (Momentum.analyze_market momInit 0 100 nanRow).2
            = some (Side.sell, re) → (0 : ℚ) < 0)
        ∧ ¬ (∃ r1 r2, (MeanReversion.analyze_market ⟨0, 0, 0⟩ 0 100
              nanRow).2 = some (Side.buy, r1)
            ∧ (MeanReversion.analyze_market ⟨0, 0, 0⟩ 0 100 nanRow).2
              = some (Side.sell, r2))
        ∧ ¬ (∃ r1 r2, (Momentum.analyze_market momInit 0 100 nanRow).2
              = some (Side.buy, r1)
            ∧ (Momentum.analyze_market momInit 0 100 nanRow).2
              = some (Side.sell, r2))) :=
  ⟨le_refl 0,
    buy_only_when_flat_sell_only_when_held ⟨0, 0, 0⟩ momInit 0 100 nanRow
      (le_refl 0)⟩

/-- C7: whenever the stop-loss condition holds, each strategy's
InPosition evaluation returns Sell("STOP_LOSS") — the stop-loss branch
is checked first, so simultaneous take-profit, technical-sell,
partial/final-profit or trend-reversal conditions cannot change the
reason. -/
theorem stop_loss_dominates_other_exits (sE : MeanReversion.State)
    (sM : Momentum.State) (pE pM : ℚ) (rE rM : Row)
    (hE : pE ≤ sE.entry_price * (1 - MeanReversion.stop_loss_pct))
    (hM : pM ≤ sM.entry_price * (1 - Momentum.stop_loss_pct)) :
    MeanReversion.check_sell_signal sE pE rE
        = some (Side.sell, Reason.STOP_LOSS)
      ∧ Momentum.analyze_sell_signal sM pM rM
          = ({ sM with position_size := 1 },
              some (Side.sell, Reason.STOP_LOSS)) := by
  constructor
  · unfold MeanReversion.check_sell_signal
    rw [if_pos hE]
  · unfold Momentum.analyze_sell_signal
    rw [if_pos hM]

/-- C7 witness: entry price 100, current price 90 (below both stop
levels 98.8 and 98.5) on rows where the technical exit of the
mean-reversion strategy and the trend-reversal exit of the momentum
strategy hold simultaneously; the reason is STOP_LOSS in both cases. -/
theorem stop_loss_dominates_other_exits_witness :
    ((90 : ℚ) ≤ 100 * (1 - MeanReversion.stop_loss_pct)
        ∧ MeanReversion.check_technical_sell_signal techSellRow = true
        ∧ (90 : ℚ) ≤ 100 * (1 - Momentum.stop_loss_pct)
        ∧ Momentum.check_trend_reversal 90 trendRevRow = true)
      ∧ (MeanReversion.check_sell_signal ⟨100, 0, 0⟩ 90 techSellRow
            = some (Side.sell, Reason.STOP_LOSS)
          ∧ Momentum.analyze_sell_signal ⟨100, 1, 0, 0⟩ 90 trendRevRow
            = ({ entry_price := 100, position_size := 1, total_fee := 0,
                  trade_count := 0 }, some (Side.sell, Reason.STOP_LOSS))) :=
  ⟨⟨by with_unfolding_all decide, by with_unfolding_all decide,
      by with_unfolding_all decide, by with_unfolding_all decide⟩,
    stop_loss_dominates_other_exits ⟨100, 0, 0⟩ ⟨100, 1, 0, 0⟩ 90 90
      techSellRow trendRevRow (by with_unfolding_all decide)
      (by with_unfolding_all decide)⟩

/-- C8: evidence that the claimed buy sizing never happens.  At the
failing input (a buy signal with any strategy state, KRW balance 10000,
price 100) the buy execution raises TypeError before reading any
balance, the sizing helper itself raises AttributeError on the undefined
`max_order_amount` attribute (its formula also divides by `(1 + fee)`
rather than multiplying by `(1 − feeRate)`), no minimum-notional check
exists anywhere, and a full cycle leaves `total_fee` unchanged — no fee
is ever accrued. -/
theorem buy_execution_path_always_raises (sE : MeanReversion.State)
    (coin pE : ℚ) (r : Row) :
    execute_trade (MeanReversion.numeric_attrs sE) "BTC" 100
        (some Side.buy)
        = ([], some (PyError.typeError
            "_get_krw_balance missing 1 required positional argument: balance"))
      ∧ calculate_buy_volume (MeanReversion.numeric_attrs sE) 10000 100
          = Except.error (PyError.attributeError "max_order_amount")
      ∧ (MeanReversion.cycle sE coin pE r).1.total_fee = sE.total_fee :=
  ⟨rfl, rfl, (MeanReversion.mr_analyze_preserves_counters sE coin pE r).1⟩

/-- The loss column has one entry per close. -/
theorem loss_column_length (closes : List ℚ) :
    (loss_column closes).length = closes.length := by
  simp [loss_column, rolling_mean_f, diff]

/-- The gain column has one entry per close. -/
theorem gain_column_length (closes : List ℚ) :
    (gain_column closes).length = closes.length := by
  simp [gain_column, rolling_mean_f, diff]

/-- Pointwise form of the RSI column: the source formula
`100 - 100 / (1 + gain / loss)` applied to the gain and loss averages of
the row. -/
theorem rsi_column_getD (closes : List ℚ) (i : ℕ)
    (hi : i < closes.length) :
    (rsi_column closes).getD i FVal.nan
      = (FVal.val 100).sub ((FVal.val 100).div ((FVal.val 1).add
          (((gain_column closes).getD i FVal.nan).div
            ((loss_column closes).getD i FVal.nan)))) := by
  have hg : i < (gain_column closes).length := by
    rw [gain_column_length]; exact hi
  have hl : i < (loss_column closes).length := by
    rw [loss_column_length]; exact hi
  have hz : i < (List.zipWith FVal.div (gain_column closes)
      (loss_column closes)).length := by
    rw [List.length_zipWith]; exact lt_min hg hl
  unfold rsi_column
  rw [map_getD _ _ i hz FVal.nan FVal.nan]
  rw [zipWith_getD FVal.div (gain_column closes) (loss_column closes) i
    hg hl FVal.nan FVal.nan FVal.nan]

/-- C9 (amended): at a row whose 14-period windows are populated, if the
loss average is 0 and the gain average is positive, the RSI is exactly
100 — the division produces the float infinity and no error is raised.
(As stated the claim is false when the gain average is also 0: then
`rs = 0/0` is NaN and the RSI is NaN, not 100; see the
counterexample.) -/
theorem rsi_is_100_when_loss_zero_gain_positive (closes : List ℚ)
    (i : ℕ) (g : ℚ)
    (hl : (loss_column closes).getD i FVal.nan = FVal.val 0)
    (hg : (gain_column closes).getD i FVal.nan = FVal.val g)
    (hgpos : 0 < g) :
    (rsi_column closes).getD i FVal.nan = FVal.val 100 := by
  have hi : i < closes.length := by
    by_contra hni
    push_neg at hni
    have hdef : (loss_column closes).getD i FVal.nan = FVal.nan :=
      List.getD_eq_default _ _ (by rw [loss_column_length]; exact hni)
    rw [hdef] at hl
    exact FVal.noConfusion hl
  rw [rsi_column_getD closes i hi, hl, hg]
  have h1 : (FVal.val g).div (FVal.val 0) = FVal.pinf := by
    simp only [FVal.div]
    rw [if_pos trivial, if_pos hgpos]
  rw [h1]
  norm_num [FVal.sub, FVal.add, FVal.neg, FVal.div]

/-- C9 witness: fifteen strictly rising closes; at row 14 the loss
average is 0, the gain average is 1, and the RSI is 100. -/
theorem rsi_is_100_when_loss_zero_gain_positive_witness :
    ((loss_column risingCloses).getD 14 FVal.nan = FVal.val 0
        ∧ (gain_column risingCloses).getD 14 FVal.nan = FVal.val 1
        ∧ (0 : ℚ) < 1)
      ∧ (rsi_column risingCloses).getD 14 FVal.nan = FVal.val 100 :=
  ⟨⟨by with_unfolding_all decide, by with_unfolding_all decide,
      by norm_num⟩,
    rsi_is_100_when_loss_zero_gain_positive risingCloses 14 1
      (by with_unfolding_all decide) (by with_unfolding_all decide)
      (by norm_num)⟩

/-- C9 counterexample: fourteen constant closes populate the 14-period
windows with loss average 0 — but the gain average is also 0, so
`rs = 0/0` is NaN and the RSI of that row is NaN, not 100. -/
theorem rsi_nan_when_gain_and_loss_zero :
    (loss_column flatCloses).getD 13 FVal.nan = FVal.val 0
      ∧ (rsi_column flatCloses).getD 13 FVal.nan = FVal.nan := by
  constructor
  · with_unfolding_all decide
  · with_unfolding_all decide

/-- C10: the indicator calculator is idempotent — it reads only the
candle base columns (close, low, high, volume), which it never writes,
so recomputing on its own output reassigns every indicator column with
the identical value. -/
theorem calculate_indicators_idempotent (sqrtQ : ℚ → ℚ) (period : ℕ)
    (k : ℚ) (df : DataFrame) :
    calculate_indicators sqrtQ period k
        (calculate_indicators sqrtQ period k df)
      = calculate_indicators sqrtQ period k df := rfl
